import Mathlib

/-!
Shallow embedding of the RDP MITM server-side state machine
(src/rdpy/mitm/server.py, class MITMServer) and proofs of the spec's
claims about it.

PDU structures keep the fields the handlers read or write; fields the
handlers merely carry through are kept as opaque values.  Side effects
(sending PDUs downstream, delegating to the client half, recording,
TLS wrapping, socket teardown) are modelled as an action trace stored
in the session state.  Flag fields are Nat (Python ints are unbounded,
and the handlers only mask bits, so no wrap-around modelling is
needed).
-/

namespace RDPMITM

/-- Modelled from the spec: enum value of rdpy.enum.rdp.NegotiationProtocols
(outside src/): PROTOCOL_SSL, 0x00000001 per MS-RDPBCGR (spec section 6). -/
def PROTOCOL_SSL : Nat := 1

/-- Modelled from the spec: enum value of rdpy.enum.rdp.NegotiationProtocols
(outside src/): NONE, 0. -/
def PROTOCOLS_NONE : Nat := 0

/-- Modelled from the spec: enum value of rdpy.enum.rdp.EncryptionMethod
(outside src/): ENCRYPTION_FIPS, 0x00000010 per MS-RDPBCGR (spec section 6). -/
def ENCRYPTION_FIPS : Nat := 16

/-- Modelled from the spec: enum value of rdpy.enum.rdp.EncryptionMethod
(outside src/): ENCRYPTION_128BIT, 0x00000002 per MS-RDPBCGR. -/
def ENCRYPTION_128BIT : Nat := 2

/-- Modelled from the spec: enum value of rdpy.enum.rdp.EncryptionLevel
(outside src/): ENCRYPTION_LEVEL_FIPS, 4 per MS-RDPBCGR. -/
def ENCRYPTION_LEVEL_FIPS : Nat := 4

/-- Modelled from the spec: enum value of rdpy.enum.rdp.EncryptionLevel
(outside src/): ENCRYPTION_LEVEL_HIGH, 3 per MS-RDPBCGR. -/
def ENCRYPTION_LEVEL_HIGH : Nat := 3

/-- Modelled from the spec: enum value of rdpy.enum.mcs.MCSResult (outside
src/): rt-successful, 0 per T.125 (matching the literal 0 the source sends
in onChannelJoinAccepted). -/
def RT_SUCCESSFUL : Nat := 0

/-- Modelled from the spec: enum value of rdpy.enum.mcs.MCSResult (outside
src/): rt-user-rejected, 15 per T.125. -/
def RT_USER_REJECTED : Nat := 15

/-- rdpy.pdu.rdp.negotiation.RDPNegotiationRequestPDU: the parsed X.224
negotiation request.  requestedProtocols is None when the request carried
no RDP_NEG_REQ structure. -/
structure RDPNegotiationRequestPDU where
  cookie : List Nat
  flags : Nat
  requestedProtocols : Option Nat
  correlationFlags : Nat
  correlationID : List Nat
  reserved : List Nat
deriving DecidableEq, Repr

/-- Modelled from the spec: the negotiation PDU class (outside src/)
exposes tlsSupported, true exactly when the request advertised the SSL
protocol; a request with no requestedProtocols did not advertise TLS
(spec scenario 2: requestedProtocols = None falls through to Standard
Security). -/
def tlsSupported (p : RDPNegotiationRequestPDU) : Bool :=
  match p.requestedProtocols with
  | none => false
  | some r => r &&& PROTOCOL_SSL != 0

/-- rdpy.pdu.rdp.connection.ProprietaryCertificate.  The RSA public key is
modelled as an opaque Nat identifier. -/
structure ProprietaryCertificate where
  signatureAlgorithmID : Nat
  keyAlgorithmID : Nat
  publicKeyType : Nat
  publicKey : Nat
  signatureType : Nat
  signature : List Nat
  padding : List Nat
deriving DecidableEq, Repr

/-- rdpy.pdu.rdp.connection.ServerSecurityData. -/
structure ServerSecurityData where
  encryptionMethod : Nat
  encryptionLevel : Nat
  serverRandom : Option (List Nat)
  serverCertificate : Option ProprietaryCertificate
deriving DecidableEq, Repr

/-- Server core data block: the handler only touches
clientRequestedProtocols; the remaining fields are opaque. -/
structure ServerCoreData where
  clientRequestedProtocols : Option Nat
  otherFields : Nat
deriving DecidableEq, Repr

/-- Server network data block: the handler reads mcsChannelID and clears
channels. -/
structure ServerNetworkData where
  mcsChannelID : Nat
  channels : List Nat
deriving DecidableEq, Repr

/-- rdpy.pdu.rdp.connection.RDPServerDataPDU. -/
structure RDPServerDataPDU where
  core : ServerCoreData
  security : ServerSecurityData
  network : ServerNetworkData
deriving DecidableEq, Repr

/-- Client security data block (inside the parsed ClientData):
onConnectInitial clears the FIPS bit in both method fields. -/
structure ClientSecurityData where
  encryptionMethods : Nat
  extEncryptionMethods : Nat
deriving DecidableEq, Repr

/-- rdpy.pdu.rdp.connection.RDPClientDataPDU; blocks other than
securityData are carried through opaquely. -/
structure RDPClientDataPDU where
  coreData : Nat
  securityData : ClientSecurityData
  networkData : Nat
  clusterData : Nat
deriving DecidableEq, Repr

/-- rdpy.pdu.mcs.MCSConnectResponsePDU; payload is the opaque serialized
GCC blob of the response as received from the real server. -/
structure MCSConnectResponsePDU where
  result : Nat
  calledConnectID : Nat
  domainParams : Nat
  payload : List Nat
deriving DecidableEq, Repr

/-- The nodeID/tag/result header of the GCC ConferenceCreateResponse
cached on the client half (client.conferenceCreateResponse). -/
structure GCCConferenceCreateResponseHeader where
  nodeID : Nat
  tag : Nat
  result : Nat
deriving DecidableEq, Repr

/-- rdpy.pdu.mcs.MCSChannelJoinRequestPDU: the fields read by
onChannelJoinRequest. -/
structure ChannelJoinRequestPDU where
  initiator : Nat
  channelID : Nat
deriving DecidableEq, Repr

/-- rdpy.pdu.rdp.security.RDPSecurityExchangePDU: carries the
RSA-encrypted client random in little-endian byte order. -/
structure RDPSecurityExchangePDU where
  clientRandom : List Nat
deriving DecidableEq, Repr

/-- Recorder message types used by the embedded handlers
(rdpy.enum.rdp.RDPPlayerMessageType). -/
inductive RecorderMarker where
  | CONNECTION_CLOSE
  | CLIENT_INFO
deriving DecidableEq, Repr

/-- Observable effects of the server-side handlers: PDUs sent down the
client-facing stack, delegations to the client half, recorder writes,
socket operations.  Serialization layers are out of scope, so sent PDUs
are carried in structured form. -/
inductive MITMAction where
  | connectClient
  | sendConnectionConfirm (protocols source : Nat)
  | startTLS
  | forwardConnectInitial (gccPayload : Nat) (clientData : RDPClientDataPDU)
  | sendMCSVerbatim (pdu : MCSConnectResponsePDU)
  | sendMCSConnectResponse (result calledConnectID domainParams : Nat)
      (nodeID tag gccResult : Nat) (serverData : RDPServerDataPDU)
  | delegateChannelJoin (channelID : Nat)
  | sendChannelJoinConfirm (result initiator channelID : Nat)
  | setClientRandomCall (value : List Nat)
  | closeTCP
  | recordMarker (marker : RecorderMarker)
  | clientDisconnect
  | cancelConnector
deriving DecidableEq, Repr

/-- The mutable state of one MITMServer session (the attributes of the
Python object that the embedded handlers read or write), plus the action
trace.  The substitute RSA key pair is immutable after construction; only
its public half is observable in sent PDUs, kept as an opaque Nat. -/
structure MITMState where
  tcpOpen : Bool
  clientConnector : Option Unit
  clientPresent : Bool
  serverData : Option RDPServerDataPDU
  originalNegotiationPDU : Option RDPNegotiationRequestPDU
  targetNegotiationPDU : Option RDPNegotiationRequestPDU
  useTLS : Bool
  rc4PublicKey : Nat
  securityState : Option ServerSecurityData
  clientRandom : Option (List Nat)
  trace : List MITMAction
deriving DecidableEq, Repr

/-- MITMServer.__init__: the session attributes start unset; the TCP
transport is open once the session exists (the factory built it on
accept). -/
def initialMITMState (publicKey : Nat) : MITMState :=
  { tcpOpen := true
    clientConnector := none
    clientPresent := false
    serverData := none
    originalNegotiationPDU := none
    targetNegotiationPDU := none
    useTLS := false
    rc4PublicKey := publicKey
    securityState := none
    clientRandom := none
    trace := [] }

/-- MITMServer.disconnectConnector: cancel the outbound connector if
present and set it to None; a second call is a no-op. -/
def disconnectConnector (st : MITMState) : MITMState :=
  match st.clientConnector with
  | some _ =>
      { st with clientConnector := none,
                trace := st.trace ++ [MITMAction.cancelConnector] }
  | none => st

/-- MITMServer.onDisconnection: record a CONNECTION_CLOSE marker, ask the
client half to disconnect if it exists, then cancel the outbound
connector. -/
def onDisconnection (st : MITMState) : MITMState :=
  let st1 := { st with
    trace := st.trace ++ [MITMAction.recordMarker RecorderMarker.CONNECTION_CLOSE] }
  let st2 :=
    if st1.clientPresent then
      { st1 with trace := st1.trace ++ [MITMAction.clientDisconnect] }
    else st1
  disconnectConnector st2

/-- Modelled from the spec: TCPLayer.disconnect (rdpy.layer.tcp, outside
src/) closes the client-facing transport, which fires the registered
onDisconnection observer exactly once; disconnecting an already-closed
transport is a no-op (spec section 4.1: TCP disconnect is idempotent). -/
def tcpDisconnect (st : MITMState) : MITMState :=
  if st.tcpOpen then
    onDisconnection { st with tcpOpen := false,
                              trace := st.trace ++ [MITMAction.closeTCP] }
  else st

/-- MITMServer.disconnect: close the client-facing TCP transport, then
cancel the outbound connector. -/
def disconnect (st : MITMState) : MITMState :=
  disconnectConnector (tcpDisconnect st)

/-- MITMServer.onUnknownTPKTHeader: an unrecognized TPKT first byte is
fatal; disconnect the session. -/
def onUnknownTPKTHeader (st : MITMState) (_header : Nat) : MITMState :=
  disconnect st

/-- MITMServer.onConnectionRequest: store the parsed request as
originalNegotiationPDU, build targetNegotiationPDU with
requestedProtocols masked to SSL only (None kept as None) and every
other field copied, then start the outbound connection. -/
def onConnectionRequest (st : MITMState) (req : RDPNegotiationRequestPDU) :
    MITMState :=
  let target : RDPNegotiationRequestPDU :=
    { cookie := req.cookie
      flags := req.flags
      requestedProtocols :=
        match req.requestedProtocols with
        | some p => some (p &&& PROTOCOL_SSL)
        | none => none
      correlationFlags := req.correlationFlags
      correlationID := req.correlationID
      reserved := req.reserved }
  { st with
    originalNegotiationPDU := some req
    targetNegotiationPDU := some target
    clientConnector := some ()
    trace := st.trace ++ [MITMAction.connectClient] }

/-- MITMServer.onConnectionConfirm: write an X.224 Connection Confirm
with source 0x1234 advertising SSL iff the original request supported
TLS; in the TLS case wrap the TCP layer in a server TLS context and set
useTLS.  Fails (AttributeError) when no Connection Request was
processed. -/
def onConnectionConfirm (st : MITMState) : Option MITMState :=
  match st.originalNegotiationPDU with
  | none => none
  | some orig =>
      let protocols :=
        if tlsSupported orig then PROTOCOL_SSL else PROTOCOLS_NONE
      let st1 := { st with
        trace := st.trace ++ [MITMAction.sendConnectionConfirm protocols 0x1234] }
      some (if tlsSupported orig then
              { st1 with useTLS := true,
                         trace := st1.trace ++ [MITMAction.startTLS] }
            else st1)

/-- MITMServer.onConnectInitial: clear ENCRYPTION_FIPS from both
encryptionMethods and extEncryptionMethods of the parsed ClientData
(Python x &= ~ENCRYPTION_FIPS, i.e. bitwise and-not on unbounded ints),
then hand the conference request and the mutated ClientData to the
client half. -/
def onConnectInitial (st : MITMState) (gccPayload : Nat)
    (clientData : RDPClientDataPDU) : MITMState :=
  let mutated : RDPClientDataPDU :=
    { clientData with
      securityData :=
        { encryptionMethods :=
            Nat.ldiff clientData.securityData.encryptionMethods ENCRYPTION_FIPS
          extEncryptionMethods :=
            Nat.ldiff clientData.securityData.extEncryptionMethods
              ENCRYPTION_FIPS } }
  { st with
    trace := st.trace ++ [MITMAction.forwardConnectInitial gccPayload mutated] }

/-- MITMServer.onConnectResponse: a non-zero result is forwarded to the
client verbatim; on success the ServerData is rewritten (certificate
public key replaced by the MITM key, FIPS method/level coerced,
clientRequestedProtocols restored to the original request's value,
channel list cleared), the new security block is fed to
SecuritySettings, and the rewritten response is sent wrapped in a GCC
header taken from the client half's cached ConferenceCreateResponse.
Fails (AttributeError) when the success path runs before any Connection
Request was processed. -/
def onConnectResponse (st : MITMState) (pdu : MCSConnectResponsePDU)
    (serverData : RDPServerDataPDU)
    (conf : GCCConferenceCreateResponseHeader) : Option MITMState :=
  if pdu.result ≠ 0 then
    some { st with trace := st.trace ++ [MITMAction.sendMCSVerbatim pdu] }
  else
    match st.originalNegotiationPDU with
    | none => none
    | some orig =>
        let cert := serverData.security.serverCertificate.map (fun c =>
          { signatureAlgorithmID := c.signatureAlgorithmID
            keyAlgorithmID := c.keyAlgorithmID
            publicKeyType := c.publicKeyType
            publicKey := st.rc4PublicKey
            signatureType := c.signatureType
            signature := c.signature
            padding := c.padding })
        let security : ServerSecurityData :=
          { encryptionMethod :=
              if serverData.security.encryptionMethod = ENCRYPTION_FIPS then
                ENCRYPTION_128BIT
              else serverData.security.encryptionMethod
            encryptionLevel :=
              if serverData.security.encryptionLevel = ENCRYPTION_LEVEL_FIPS then
                ENCRYPTION_LEVEL_HIGH
              else serverData.security.encryptionLevel
            serverRandom := serverData.security.serverRandom
            serverCertificate := cert }
        let core := { serverData.core with
          clientRequestedProtocols := orig.requestedProtocols }
        let network := { serverData.network with channels := [] }
        let newServerData : RDPServerDataPDU :=
          { core := core, security := security, network := network }
        some { st with
          securityState := some security
          serverData := some newServerData
          trace := st.trace ++
            [MITMAction.sendMCSConnectResponse pdu.result pdu.calledConnectID
              pdu.domainParams conf.nodeID conf.tag conf.result newServerData] }

/-- Modelled from the spec: after a negotiation failure the forwarded
response reaches the client and the session then disconnects (spec
section 7: NegotiationFailure forwards the original failure response to
the client verbatim and then disconnects).  The disconnect trigger lives
in the client half, outside src/; the forward itself and the disconnect
cascade are the src handlers embedded above. -/
def negotiationFailureFlow (st : MITMState) (pdu : MCSConnectResponsePDU)
    (serverData : RDPServerDataPDU)
    (conf : GCCConferenceCreateResponseHeader) : Option MITMState :=
  (onConnectResponse st pdu serverData conf).map disconnect

/-- MITMServer.onChannelJoinRequest: the primary I/O channel is delegated
to the client half; any other channel is answered locally, successfully
only for channel 1004.  Fails (AttributeError on serverData = None) when
no successful Connect-Response was processed yet. -/
def onChannelJoinRequest (st : MITMState) (pdu : ChannelJoinRequestPDU) :
    Option MITMState :=
  match st.serverData with
  | none => none
  | some sd =>
      if pdu.channelID = sd.network.mcsChannelID then
        some { st with
          trace := st.trace ++ [MITMAction.delegateChannelJoin pdu.channelID] }
      else
        some { st with
          trace := st.trace ++
            [MITMAction.sendChannelJoinConfirm
              (if pdu.channelID = 1004 then RT_SUCCESSFUL else RT_USER_REJECTED)
              pdu.initiator pdu.channelID] }

/-- MITMServer.onChannelJoinAccepted: once the client half confirms the
delegated join, confirm it to the client with result 0. -/
def onChannelJoinAccepted (st : MITMState) (userID channelID : Nat) :
    MITMState :=
  { st with
    trace := st.trace ++ [MITMAction.sendChannelJoinConfirm 0 userID channelID] }

/-- The parameters buildChannel wires into the per-channel stack
(security-layer variant, fast-path parser and securityHeaderExpected are
all determined by useTLS and the negotiated encryption method); the
layer objects themselves are outside src/. -/
structure BuiltChannel where
  userID : Nat
  channelID : Nat
  usesTLS : Bool
  encryptionMethod : Nat
  securityHeaderExpected : Bool
deriving DecidableEq, Repr

/-- MITMServer.buildChannel: returns None for any channel other than the
primary I/O channel, otherwise builds the channel stack.  Fails
(AttributeError on serverData = None) when no successful
Connect-Response was processed yet. -/
def buildChannel (st : MITMState) (userID channelID : Nat) :
    Option (Option BuiltChannel) :=
  match st.serverData with
  | none => none
  | some sd =>
      if channelID ≠ sd.network.mcsChannelID then
        some none
      else
        some (some
          { userID := userID
            channelID := channelID
            usesTLS := st.useTLS
            encryptionMethod := sd.security.encryptionMethod
            securityHeaderExpected := st.useTLS })

/-- MITMServer.onSecurityExchangeReceived: reverse the wire bytes of the
encrypted client random, decrypt with the MITM RSA private key (passed
here as the abstract decryption function of that key), reverse the
plaintext back, and feed it to SecuritySettings.setClientRandom. -/
def recoverClientRandom (decrypt : List Nat → List Nat)
    (wire : List Nat) : List Nat :=
  (decrypt wire.reverse).reverse

/-- MITMServer.onSecurityExchangeReceived as a state transition: the
recovered plaintext is handed to SecuritySettings.setClientRandom. -/
def onSecurityExchangeReceived (decrypt : List Nat → List Nat)
    (st : MITMState) (pdu : RDPSecurityExchangePDU) : MITMState :=
  let plaintext := recoverClientRandom decrypt pdu.clientRandom
  { st with
    clientRandom := some plaintext
    trace := st.trace ++ [MITMAction.setClientRandomCall plaintext] }

/-- Modelled from the spec: the client encrypts its random with the
server certificate's RSA public key and sends it little-endian, i.e. the
wire value is the byte-reversed RSA ciphertext of the byte-reversed
random (spec sections 4.3 and 8; the client side is outside src/). -/
def clientEncryptRandom (encrypt : List Nat → List Nat)
    (r : List Nat) : List Nat :=
  (encrypt r.reverse).reverse

/-- Concrete negotiation request used to evaluate the theorems:
requestedProtocols 11 has the SSL bit set. -/
def sampleRequest : RDPNegotiationRequestPDU :=
  { cookie := [1, 2], flags := 3, requestedProtocols := some 11
    correlationFlags := 4, correlationID := [5], reserved := [6] }

/-- Session state right after the sample Connection Request was
processed. -/
def sampleState : MITMState :=
  onConnectionRequest (initialMITMState 5) sampleRequest

/-- Concrete server certificate (public key 99, to be replaced). -/
def sampleCert : ProprietaryCertificate :=
  { signatureAlgorithmID := 1, keyAlgorithmID := 2, publicKeyType := 3
    publicKey := 99, signatureType := 4, signature := [5], padding := [6] }

/-- Concrete ServerData as received from the real server: FIPS method and
level, a certificate, two channels, I/O channel 1003. -/
def sampleServerData : RDPServerDataPDU :=
  { core := { clientRequestedProtocols := some 7, otherFields := 8 }
    security := { encryptionMethod := ENCRYPTION_FIPS
                  encryptionLevel := ENCRYPTION_LEVEL_FIPS
                  serverRandom := some [9]
                  serverCertificate := some sampleCert }
    network := { mcsChannelID := 1003, channels := [31, 32] } }

/-- Concrete GCC ConferenceCreateResponse header cached on the client
half. -/
def sampleConf : GCCConferenceCreateResponseHeader :=
  { nodeID := 10, tag := 11, result := 12 }

/-- Concrete successful MCS Connect-Response. -/
def sampleConnectResponse : MCSConnectResponsePDU :=
  { result := 0, calledConnectID := 13, domainParams := 14, payload := [15] }

/-- Concrete failed MCS Connect-Response (result 1). -/
def sampleFailResponse : MCSConnectResponsePDU :=
  { result := 1, calledConnectID := 13, domainParams := 14, payload := [15] }

/-- Concrete ClientData: encryptionMethods 27 and extEncryptionMethods 18
both have the FIPS bit (16) set. -/
def sampleClientData : RDPClientDataPDU :=
  { coreData := 21
    securityData := { encryptionMethods := 27, extEncryptionMethods := 18 }
    networkData := 22, clusterData := 23 }

/-- Session state after the sample ServerData was accepted (serverData
assigned, I/O channel 1003). -/
def sampleStateJoined : MITMState :=
  { sampleState with serverData := some sampleServerData }

/-- What the teardown cascade may append to the trace. -/
def teardownAction (a : MITMAction) : Prop :=
  a = MITMAction.closeTCP ∨
    a = MITMAction.recordMarker RecorderMarker.CONNECTION_CLOSE ∨
    a = MITMAction.clientDisconnect ∨ a = MITMAction.cancelConnector

theorem disconnect_trace_spec (s : MITMState) :
    ∃ tail, (disconnect s).trace = s.trace ++ tail ∧
      (∀ a ∈ tail, teardownAction a) ∧
      (disconnect s).tcpOpen = false ∧
      (disconnect s).clientConnector = none ∧
      (disconnect s).serverData = s.serverData ∧
      (disconnect s).securityState = s.securityState ∧
      (s.tcpOpen = true →
        MITMAction.closeTCP ∈ tail ∧
        MITMAction.recordMarker RecorderMarker.CONNECTION_CLOSE ∈ tail) := by
  cases hO : s.tcpOpen <;> cases hP : s.clientPresent <;>
    cases hC : s.clientConnector <;>
    simp [disconnect, tcpDisconnect, onDisconnection, disconnectConnector,
      hO, hP, hC, teardownAction]

theorem disconnect_of_closed (s : MITMState) (h1 : s.tcpOpen = false)
    (h2 : s.clientConnector = none) : disconnect s = s := by
  simp [disconnect, tcpDisconnect, disconnectConnector, h1, h2]

/-- C2: for every X.224 Connection Request received, onConnectionRequest
builds the outbound negotiation PDU with requestedProtocols equal to the
original value bitwise-anded with the SSL flag (None kept as None), and
cookie, flags, correlationFlags, correlationID and reserved taken
unchanged from the original request, which is stored verbatim. -/
theorem onConnectionRequest_masksProtocols (st : MITMState)
    (req : RDPNegotiationRequestPDU) :
    ∃ t, (onConnectionRequest st req).targetNegotiationPDU = some t ∧
      t.requestedProtocols =
        Option.map (fun p => p &&& PROTOCOL_SSL) req.requestedProtocols ∧
      t.cookie = req.cookie ∧ t.flags = req.flags ∧
      t.correlationFlags = req.correlationFlags ∧
      t.correlationID = req.correlationID ∧
      t.reserved = req.reserved ∧
      (onConnectionRequest st req).originalNegotiationPDU = some req := by
  refine ⟨_, rfl, ?_, rfl, rfl, rfl, rfl, rfl, rfl⟩
  cases req.requestedProtocols <;> rfl

/-- C3: onConnectionConfirm writes the X.224 Connection Confirm with
source 0x1234, advertising SSL iff the original request advertised TLS
(NONE otherwise), and wraps the TCP layer in TLS (useTLS set) exactly
when the original request advertised TLS. -/
theorem onConnectionConfirm_advertisesTLSIff (st : MITMState)
    (orig : RDPNegotiationRequestPDU)
    (horig : st.originalNegotiationPDU = some orig)
    (huse : st.useTLS = false) :
    ∃ st' v, onConnectionConfirm st = some st' ∧
      st'.trace = st.trace ++ [MITMAction.sendConnectionConfirm v 0x1234] ++
        (if tlsSupported orig then [MITMAction.startTLS] else []) ∧
      (v = PROTOCOL_SSL ↔ tlsSupported orig = true) ∧
      (tlsSupported orig = false → v = PROTOCOLS_NONE) ∧
      st'.useTLS = tlsSupported orig := by
  cases h : tlsSupported orig
  · refine ⟨{ st with trace := st.trace ++
        [MITMAction.sendConnectionConfirm PROTOCOLS_NONE 0x1234] },
      PROTOCOLS_NONE, ?_, ?_, ?_, ?_, ?_⟩
    · simp [onConnectionConfirm, horig, h]
    · simp [h]
    · simp [PROTOCOLS_NONE, PROTOCOL_SSL]
    · intro
      rfl
    · simpa [h] using huse
  · refine ⟨{ st with useTLS := true,
                      trace := st.trace ++
                        [MITMAction.sendConnectionConfirm PROTOCOL_SSL 0x1234,
                          MITMAction.startTLS] },
      PROTOCOL_SSL, ?_, ?_, ?_, ?_, ?_⟩
    · simp [onConnectionConfirm, horig, h]
    · simp [h]
    · simp
    · simp
    · simp

/-- C3 witness: evaluated on the sample state, whose original request has
the SSL bit set. -/
theorem onConnectionConfirm_advertisesTLSIff_witness :
    ∃ st' v, onConnectionConfirm sampleState = some st' ∧
      st'.trace = sampleState.trace ++
        [MITMAction.sendConnectionConfirm v 0x1234] ++
        (if tlsSupported sampleRequest then [MITMAction.startTLS] else []) ∧
      (v = PROTOCOL_SSL ↔ tlsSupported sampleRequest = true) ∧
      (tlsSupported sampleRequest = false → v = PROTOCOLS_NONE) ∧
      st'.useTLS = tlsSupported sampleRequest :=
  onConnectionConfirm_advertisesTLSIff sampleState sampleRequest rfl rfl

/-- C4: decrypting the byte-reversed encrypted client random with the
MITM RSA private key and reversing the result recovers the plaintext
client random (the inverse of the client's encryption), and that value
is handed to SecuritySettings.setClientRandom. -/
theorem securityExchange_roundTrip (enc dec : List Nat → List Nat)
    (hinv : ∀ x, dec (enc x) = x) (st : MITMState) (r : List Nat)
    (pdu : RDPSecurityExchangePDU)
    (hwire : pdu.clientRandom = clientEncryptRandom enc r) :
    recoverClientRandom dec pdu.clientRandom = r ∧
    (onSecurityExchangeReceived dec st pdu).clientRandom = some r ∧
    (onSecurityExchangeReceived dec st pdu).trace =
      st.trace ++ [MITMAction.setClientRandomCall r] := by
  have key : recoverClientRandom dec pdu.clientRandom = r := by
    rw [hwire]
    simp [recoverClientRandom, clientEncryptRandom, hinv]
  exact ⟨key, by simp [onSecurityExchangeReceived, key],
    by simp [onSecurityExchangeReceived, key]⟩

/-- C4 witness: with encryption and decryption both byte reversal (an
involution, hence mutually inverse), wire value [3, 2, 1] decodes to the
random [1, 2, 3]. -/
theorem securityExchange_roundTrip_witness :
    recoverClientRandom List.reverse
        (RDPSecurityExchangePDU.mk [3, 2, 1]).clientRandom = [1, 2, 3] ∧
    (onSecurityExchangeReceived List.reverse sampleState
        (RDPSecurityExchangePDU.mk [3, 2, 1])).clientRandom =
      some [1, 2, 3] ∧
    (onSecurityExchangeReceived List.reverse sampleState
        (RDPSecurityExchangePDU.mk [3, 2, 1])).trace =
      sampleState.trace ++ [MITMAction.setClientRandomCall [1, 2, 3]] :=
  securityExchange_roundTrip List.reverse List.reverse
    (fun x => List.reverse_reverse x) sampleState [1, 2, 3]
    (RDPSecurityExchangePDU.mk [3, 2, 1]) rfl

/-- C7: onConnectInitial clears the ENCRYPTION_FIPS bit (bit 4) from both
encryptionMethods and extEncryptionMethods of the parsed client security
data, leaves every other bit and every other block unchanged, and hands
the mutated ClientData to the client half. -/
theorem onConnectInitial_clearsFIPS (st : MITMState) (gccPayload : Nat)
    (cd : RDPClientDataPDU) :
    ∃ cd', (onConnectInitial st gccPayload cd).trace =
        st.trace ++ [MITMAction.forwardConnectInitial gccPayload cd'] ∧
      cd'.securityData.encryptionMethods.testBit 4 = false ∧
      cd'.securityData.extEncryptionMethods.testBit 4 = false ∧
      (∀ i, i ≠ 4 → cd'.securityData.encryptionMethods.testBit i =
        cd.securityData.encryptionMethods.testBit i) ∧
      (∀ i, i ≠ 4 → cd'.securityData.extEncryptionMethods.testBit i =
        cd.securityData.extEncryptionMethods.testBit i) ∧
      cd'.coreData = cd.coreData ∧ cd'.networkData = cd.networkData ∧
      cd'.clusterData = cd.clusterData := by
  have h16 : ∀ i, Nat.testBit ENCRYPTION_FIPS i = decide (4 = i) := by
    intro i
    by_cases h : (4 : Nat) = i
    · subst h; rfl
    · rw [decide_eq_false h]
      have : Nat.testBit (2 ^ 4) i = false := Nat.testBit_two_pow_of_ne h
      simpa using this
  refine ⟨_, rfl, ?_, ?_, ?_, ?_, rfl, rfl, rfl⟩
  · rw [Nat.testBit_ldiff, h16]; simp
  · rw [Nat.testBit_ldiff, h16]; simp
  · intro i hi
    rw [Nat.testBit_ldiff, h16, decide_eq_false (fun h => hi h.symm)]
    simp
  · intro i hi
    rw [Nat.testBit_ldiff, h16, decide_eq_false (fun h => hi h.symm)]
    simp

/-- C7 witness: evaluated at encryptionMethods 27 and
extEncryptionMethods 18 (both with bit 4 set). -/
theorem onConnectInitial_clearsFIPS_witness :
    ∃ cd', (onConnectInitial sampleState 41 sampleClientData).trace =
        sampleState.trace ++ [MITMAction.forwardConnectInitial 41 cd'] ∧
      cd'.securityData.encryptionMethods.testBit 4 = false ∧
      cd'.securityData.extEncryptionMethods.testBit 4 = false ∧
      (∀ i, i ≠ 4 → cd'.securityData.encryptionMethods.testBit i =
        sampleClientData.securityData.encryptionMethods.testBit i) ∧
      (∀ i, i ≠ 4 → cd'.securityData.extEncryptionMethods.testBit i =
        sampleClientData.securityData.extEncryptionMethods.testBit i) ∧
      cd'.coreData = sampleClientData.coreData ∧
      cd'.networkData = sampleClientData.networkData ∧
      cd'.clusterData = sampleClientData.clusterData :=
  onConnectInitial_clearsFIPS sampleState 41 sampleClientData

/-- C1: onConnectResponse on a successful Connect-Response (result 0)
sends back a rewritten ServerData whose clientRequestedProtocols equals
the original request's requestedProtocols, whose encryptionMethod and
encryptionLevel are never FIPS (FIPS coerced to 128-bit and HIGH),
whose channel list is empty, and whose server certificate carries the
MITM RSA public key with every other certificate field preserved. -/
theorem onConnectResponse_rewritesServerData (st : MITMState)
    (pdu : MCSConnectResponsePDU) (serverData : RDPServerDataPDU)
    (conf : GCCConferenceCreateResponseHeader)
    (orig : RDPNegotiationRequestPDU)
    (hres : pdu.result = 0)
    (horig : st.originalNegotiationPDU = some orig) :
    ∃ sd', onConnectResponse st pdu serverData conf =
        some { st with securityState := some sd'.security,
                       serverData := some sd',
                       trace := st.trace ++
                         [MITMAction.sendMCSConnectResponse pdu.result
                           pdu.calledConnectID pdu.domainParams
                           conf.nodeID conf.tag conf.result sd'] } ∧
      sd'.core.clientRequestedProtocols = orig.requestedProtocols ∧
      sd'.security.encryptionMethod ≠ ENCRYPTION_FIPS ∧
      sd'.security.encryptionLevel ≠ ENCRYPTION_LEVEL_FIPS ∧
      (serverData.security.encryptionMethod = ENCRYPTION_FIPS →
        sd'.security.encryptionMethod = ENCRYPTION_128BIT) ∧
      (serverData.security.encryptionLevel = ENCRYPTION_LEVEL_FIPS →
        sd'.security.encryptionLevel = ENCRYPTION_LEVEL_HIGH) ∧
      sd'.network.channels = [] ∧
      sd'.network.mcsChannelID = serverData.network.mcsChannelID ∧
      (∀ c, serverData.security.serverCertificate = some c →
        ∃ c', sd'.security.serverCertificate = some c' ∧
          c'.publicKey = st.rc4PublicKey ∧
          c'.signatureAlgorithmID = c.signatureAlgorithmID ∧
          c'.keyAlgorithmID = c.keyAlgorithmID ∧
          c'.publicKeyType = c.publicKeyType ∧
          c'.signatureType = c.signatureType ∧
          c'.signature = c.signature ∧ c'.padding = c.padding) := by
  unfold onConnectResponse
  rw [if_neg (by simp [hres]), horig, hres]
  refine ⟨_, rfl, rfl, ?_, ?_, ?_, ?_, rfl, rfl, ?_⟩
  · by_cases hm : serverData.security.encryptionMethod = ENCRYPTION_FIPS
    · simp only [hm, if_pos rfl]
      decide
    · rw [if_neg hm]
      exact hm
  · by_cases hl : serverData.security.encryptionLevel = ENCRYPTION_LEVEL_FIPS
    · simp only [hl, if_pos rfl]
      decide
    · rw [if_neg hl]
      exact hl
  · intro hm
    simp [hm]
  · intro hl
    simp [hl]
  · intro c hc
    refine ⟨{ signatureAlgorithmID := c.signatureAlgorithmID,
              keyAlgorithmID := c.keyAlgorithmID,
              publicKeyType := c.publicKeyType,
              publicKey := st.rc4PublicKey,
              signatureType := c.signatureType,
              signature := c.signature,
              padding := c.padding },
        ?_, rfl, rfl, rfl, rfl, rfl, rfl, rfl⟩
    simp [hc]

/-- C1 witness: evaluated on the sample session (original request stored)
with a successful response carrying FIPS method and level, a certificate
and two channels. -/
theorem onConnectResponse_rewritesServerData_witness :
    ∃ sd', onConnectResponse sampleState sampleConnectResponse
          sampleServerData sampleConf =
        some { sampleState with securityState := some sd'.security,
                                serverData := some sd',
                                trace := sampleState.trace ++
                                  [MITMAction.sendMCSConnectResponse
                                    sampleConnectResponse.result
                                    sampleConnectResponse.calledConnectID
                                    sampleConnectResponse.domainParams
                                    sampleConf.nodeID sampleConf.tag
                                    sampleConf.result sd'] } ∧
      sd'.core.clientRequestedProtocols = sampleRequest.requestedProtocols ∧
      sd'.security.encryptionMethod ≠ ENCRYPTION_FIPS ∧
      sd'.security.encryptionLevel ≠ ENCRYPTION_LEVEL_FIPS ∧
      (sampleServerData.security.encryptionMethod = ENCRYPTION_FIPS →
        sd'.security.encryptionMethod = ENCRYPTION_128BIT) ∧
      (sampleServerData.security.encryptionLevel = ENCRYPTION_LEVEL_FIPS →
        sd'.security.encryptionLevel = ENCRYPTION_LEVEL_HIGH) ∧
      sd'.network.channels = [] ∧
      sd'.network.mcsChannelID = sampleServerData.network.mcsChannelID ∧
      (∀ c, sampleServerData.security.serverCertificate = some c →
        ∃ c', sd'.security.serverCertificate = some c' ∧
          c'.publicKey = sampleState.rc4PublicKey ∧
          c'.signatureAlgorithmID = c.signatureAlgorithmID ∧
          c'.keyAlgorithmID = c.keyAlgorithmID ∧
          c'.publicKeyType = c.publicKeyType ∧
          c'.signatureType = c.signatureType ∧
          c'.signature = c.signature ∧ c'.padding = c.padding) :=
  onConnectResponse_rewritesServerData sampleState sampleConnectResponse
    sampleServerData sampleConf sampleRequest rfl rfl

/-- C5: onChannelJoinRequest delegates the primary I/O channel to the
client half (success is confirmed only once the client half accepts, via
onChannelJoinAccepted), confirms channel 1004 locally with
RT_SUCCESSFUL, and refuses every other channel with RT_USER_REJECTED;
no locally sent confirm is successful for a channel other than 1004. -/
theorem onChannelJoinRequest_channelPolicy (st : MITMState)
    (sd : RDPServerDataPDU) (pdu : ChannelJoinRequestPDU)
    (hsd : st.serverData = some sd) :
    ∃ st', onChannelJoinRequest st pdu = some st' ∧
      (pdu.channelID = sd.network.mcsChannelID →
        st'.trace = st.trace ++
          [MITMAction.delegateChannelJoin pdu.channelID]) ∧
      (pdu.channelID ≠ sd.network.mcsChannelID → pdu.channelID = 1004 →
        st'.trace = st.trace ++
          [MITMAction.sendChannelJoinConfirm RT_SUCCESSFUL
            pdu.initiator pdu.channelID]) ∧
      (pdu.channelID ≠ sd.network.mcsChannelID → pdu.channelID ≠ 1004 →
        st'.trace = st.trace ++
          [MITMAction.sendChannelJoinConfirm RT_USER_REJECTED
            pdu.initiator pdu.channelID]) ∧
      (∀ res init cid,
        st'.trace = st.trace ++
          [MITMAction.sendChannelJoinConfirm res init cid] →
        res = RT_SUCCESSFUL → cid = 1004) ∧
      (∀ userID cid, (onChannelJoinAccepted st' userID cid).trace =
        st'.trace ++
          [MITMAction.sendChannelJoinConfirm RT_SUCCESSFUL userID cid]) := by
  by_cases hm : pdu.channelID = sd.network.mcsChannelID
  · refine ⟨{ st with trace := st.trace ++
        [MITMAction.delegateChannelJoin pdu.channelID] }, ?_, ?_, ?_, ?_, ?_, ?_⟩
    · simp [onChannelJoinRequest, hsd, hm]
    · intro
      rfl
    · intro h
      exact absurd hm h
    · intro h
      exact absurd hm h
    · intro res init cid heq
      have h2 := List.append_cancel_left heq
      injection h2 with h3 htail
      injection h3
    · intro userID cid
      simp [onChannelJoinAccepted, RT_SUCCESSFUL]
  · refine ⟨{ st with trace := st.trace ++
        [MITMAction.sendChannelJoinConfirm
          (if pdu.channelID = 1004 then RT_SUCCESSFUL else RT_USER_REJECTED)
          pdu.initiator pdu.channelID] }, ?_, ?_, ?_, ?_, ?_, ?_⟩
    · simp [onChannelJoinRequest, hsd, hm]
    · intro h
      exact absurd h hm
    · intro _ h4
      simp [h4]
    · intro _ h4
      simp [h4]
    · intro res init cid heq hres
      have h2 := List.append_cancel_left heq
      injection h2 with h3 htail
      injection h3 with hr hi hc
      by_cases h4 : pdu.channelID = 1004
      · rw [← hc]
        exact h4
      · rw [if_neg h4, hres] at hr
        exact absurd hr (by decide)
    · intro userID cid
      simp [onChannelJoinAccepted, RT_SUCCESSFUL]

/-- C5 witness: evaluated on the joined sample session (I/O channel
1003) with a join request for channel 1007, which is refused. -/
theorem onChannelJoinRequest_channelPolicy_witness :
    ∃ st', onChannelJoinRequest sampleStateJoined
        (ChannelJoinRequestPDU.mk 77 1007) = some st' ∧
      ((ChannelJoinRequestPDU.mk 77 1007).channelID =
          sampleServerData.network.mcsChannelID →
        st'.trace = sampleStateJoined.trace ++
          [MITMAction.delegateChannelJoin 1007]) ∧
      ((ChannelJoinRequestPDU.mk 77 1007).channelID ≠
          sampleServerData.network.mcsChannelID →
        (ChannelJoinRequestPDU.mk 77 1007).channelID = 1004 →
        st'.trace = sampleStateJoined.trace ++
          [MITMAction.sendChannelJoinConfirm RT_SUCCESSFUL 77 1007]) ∧
      ((ChannelJoinRequestPDU.mk 77 1007).channelID ≠
          sampleServerData.network.mcsChannelID →
        (ChannelJoinRequestPDU.mk 77 1007).channelID ≠ 1004 →
        st'.trace = sampleStateJoined.trace ++
          [MITMAction.sendChannelJoinConfirm RT_USER_REJECTED 77 1007]) ∧
      (∀ res init cid,
        st'.trace = sampleStateJoined.trace ++
          [MITMAction.sendChannelJoinConfirm res init cid] →
        res = RT_SUCCESSFUL → cid = 1004) ∧
      (∀ userID cid, (onChannelJoinAccepted st' userID cid).trace =
        st'.trace ++
          [MITMAction.sendChannelJoinConfirm RT_SUCCESSFUL userID cid]) :=
  onChannelJoinRequest_channelPolicy sampleStateJoined sampleServerData
    (ChannelJoinRequestPDU.mk 77 1007) rfl

/-- C6: a Connect-Response with non-zero result is forwarded to the
client verbatim with no ServerData mutation (serverData and the
security-settings state are untouched) and the session then disconnects
(the client-facing transport ends closed, the outbound connector
cancelled, and only teardown actions follow the verbatim forward). -/
theorem negotiationFailure_verbatimAndDisconnects (st : MITMState)
    (pdu : MCSConnectResponsePDU) (serverData : RDPServerDataPDU)
    (conf : GCCConferenceCreateResponseHeader)
    (hres : pdu.result ≠ 0) :
    ∃ st' tail, negotiationFailureFlow st pdu serverData conf = some st' ∧
      st'.trace = st.trace ++ [MITMAction.sendMCSVerbatim pdu] ++ tail ∧
      (∀ a ∈ tail, teardownAction a) ∧
      st'.serverData = st.serverData ∧
      st'.securityState = st.securityState ∧
      st'.tcpOpen = false ∧
      st'.clientConnector = none := by
  have h1 : onConnectResponse st pdu serverData conf =
      some { st with trace := st.trace ++ [MITMAction.sendMCSVerbatim pdu] } := by
    unfold onConnectResponse
    rw [if_pos hres]
  obtain ⟨tail, htr, hta, hopen, hconn, hsd, hsec, -⟩ :=
    disconnect_trace_spec
      { st with trace := st.trace ++ [MITMAction.sendMCSVerbatim pdu] }
  refine ⟨_, tail, ?_, htr, hta, hsd, hsec, hopen, hconn⟩
  simp [negotiationFailureFlow, h1]

/-- C6 witness: evaluated on the sample session with a Connect-Response
whose result is 1. -/
theorem negotiationFailure_verbatimAndDisconnects_witness :
    ∃ st' tail, negotiationFailureFlow sampleState sampleFailResponse
        sampleServerData sampleConf = some st' ∧
      st'.trace = sampleState.trace ++
        [MITMAction.sendMCSVerbatim sampleFailResponse] ++ tail ∧
      (∀ a ∈ tail, teardownAction a) ∧
      st'.serverData = sampleState.serverData ∧
      st'.securityState = sampleState.securityState ∧
      st'.tcpOpen = false ∧
      st'.clientConnector = none :=
  negotiationFailure_verbatimAndDisconnects sampleState sampleFailResponse
    sampleServerData sampleConf (by decide)

/-- C8: an unknown TPKT first byte is fatal: onUnknownTPKTHeader runs
the disconnect cascade, so the client-facing transport ends closed, the
outbound connector is cancelled, and a CONNECTION_CLOSE marker is
recorded. -/
theorem onUnknownTPKTHeader_fatal (st : MITMState) (header : Nat)
    (hopen : st.tcpOpen = true) :
    (onUnknownTPKTHeader st header).tcpOpen = false ∧
    (onUnknownTPKTHeader st header).clientConnector = none ∧
    MITMAction.closeTCP ∈ (onUnknownTPKTHeader st header).trace ∧
    MITMAction.recordMarker RecorderMarker.CONNECTION_CLOSE ∈
      (onUnknownTPKTHeader st header).trace := by
  obtain ⟨tail, htr, -, hopen2, hconn, -, -, hmarks⟩ := disconnect_trace_spec st
  obtain ⟨hclose, hmark⟩ := hmarks hopen
  have hdef : onUnknownTPKTHeader st header = disconnect st := rfl
  rw [hdef, htr]
  exact ⟨hopen2, hconn, List.mem_append_right _ hclose,
    List.mem_append_right _ hmark⟩

/-- C8 witness: evaluated on the sample session (transport open) with
first byte 0x42. -/
theorem onUnknownTPKTHeader_fatal_witness :
    (onUnknownTPKTHeader sampleState 0x42).tcpOpen = false ∧
    (onUnknownTPKTHeader sampleState 0x42).clientConnector = none ∧
    MITMAction.closeTCP ∈ (onUnknownTPKTHeader sampleState 0x42).trace ∧
    MITMAction.recordMarker RecorderMarker.CONNECTION_CLOSE ∈
      (onUnknownTPKTHeader sampleState 0x42).trace :=
  onUnknownTPKTHeader_fatal sampleState 0x42 rfl

/-- C9: disconnect is idempotent: a second disconnect leaves the session
state, including the recorded markers and socket operations in the
trace, exactly as after the first one (the first call closes the
transport and sets the connector to None, so the second is a no-op). -/
theorem disconnect_idem (st : MITMState) :
    disconnect (disconnect st) = disconnect st := by
  obtain ⟨tail, -, -, hopen, hconn, -, -, -⟩ := disconnect_trace_spec st
  exact disconnect_of_closed _ hopen hconn

/-- C10: onChannelJoinRequest and buildChannel dereference
serverData.network.mcsChannelID unconditionally, so before a successful
Connect-Response has assigned serverData (it is None initially, and a
failed Connect-Response leaves it None) both operations fail on the None
value instead of rejecting the request cleanly. -/
theorem serverData_nonePrecondition (st : MITMState)
    (pdu : ChannelJoinRequestPDU) (userID channelID : Nat)
    (resp : MCSConnectResponsePDU) (sd : RDPServerDataPDU)
    (conf : GCCConferenceCreateResponseHeader) (key : Nat)
    (hnone : st.serverData = none) :
    onChannelJoinRequest st pdu = none ∧
    buildChannel st userID channelID = none ∧
    (initialMITMState key).serverData = none ∧
    (resp.result ≠ 0 → ∀ st',
      onConnectResponse st resp sd conf = some st' →
      st'.serverData = none) ∧
    (resp.result = 0 → ∀ st',
      onConnectResponse st resp sd conf = some st' →
      ∃ sd2, st'.serverData = some sd2) := by
  refine ⟨?_, ?_, rfl, ?_, ?_⟩
  · simp [onChannelJoinRequest, hnone]
  · simp [buildChannel, hnone]
  · intro h st' heq
    unfold onConnectResponse at heq
    rw [if_pos h] at heq
    injection heq with heq
    rw [← heq]
    exact hnone
  · intro h st' heq
    unfold onConnectResponse at heq
    rw [if_neg (by simp [h])] at heq
    cases horig : st.originalNegotiationPDU with
    | none =>
        rw [horig] at heq
        exact absurd heq (by simp)
    | some orig =>
        rw [horig] at heq
        injection heq with heq
        rw [← heq]
        exact ⟨_, rfl⟩

/-- C10 witness: evaluated on the sample session before any
Connect-Response (serverData is None): the join of channel 1003 and the
build of channel 1003 both fail with None. -/
theorem serverData_nonePrecondition_witness :
    onChannelJoinRequest sampleState (ChannelJoinRequestPDU.mk 77 1003) =
      none ∧
    buildChannel sampleState 3 1003 = none ∧
    (initialMITMState 9).serverData = none ∧
    (sampleFailResponse.result ≠ 0 → ∀ st',
      onConnectResponse sampleState sampleFailResponse sampleServerData
        sampleConf = some st' →
      st'.serverData = none) ∧
    (sampleFailResponse.result = 0 → ∀ st',
      onConnectResponse sampleState sampleFailResponse sampleServerData
        sampleConf = some st' →
      ∃ sd2, st'.serverData = some sd2) :=
  serverData_nonePrecondition sampleState (ChannelJoinRequestPDU.mk 77 1003)
    3 1003 sampleFailResponse sampleServerData sampleConf 9 rfl

end RDPMITM
